import Mathlib

/-!
# metal-ops: request pipeline and report handler

A shallow embedding of `internal/handlers/middleware.go` and
`internal/handlers/report.go`.

Go values are modelled as follows.

* `string` and `[]byte` are `String`; `int` is `Int`.
* A Go `map[string][]string` (`http.Header`, `url.Values`) is a total function
  `String → List String`; an absent key is the empty list.
* `http.ResponseWriter` is an interface, so every function that receives one is
  generic in the state type `σ` of the implementation and takes the method
  table `ResponseWriter σ`; a method that mutates the receiver returns the new
  state.
* A collaborator that returns `(T, error)` is an `Except String T`, the error
  being its message; `Reporter.report`, which can also panic, returns `Ret`.
* Calls on collaborators (logger, backend client) are recorded as a list of
  `Event`s in the order in which they happen.
-/

namespace MetalOps

/-! ## net/http: headers and the response-writer interface -/

/-- Go `map[string][]string`, the representation of `http.Header` and `url.Values`. -/
abbrev Values := String → List String

/-- Go `Values.Get` / `Header.Get`: the first value of the key, `""` when there is none.
    (`Header.Get` canonicalises the key first; every key used here is canonical.) -/
def Values.Get (v : Values) (key : String) : String :=
  match v key with
  | [] => ""
  | x :: _ => x

/-- Go `Header.Set`: the key now maps to the single value. -/
def Values.Set (v : Values) (key value : String) : Values :=
  fun k => if k = key then [value] else v k

/-- Go `Header.Del`: the key is removed. -/
def Values.Del (v : Values) (key : String) : Values :=
  fun k => if k = key then [] else v k

/-- The empty map. -/
def Values.empty : Values := fun _ => []

abbrev Header := Values

/-- Method table of an implementation of Go's `http.ResponseWriter` with state `σ`.
    `Header()` returns a mutable map owned by the writer: `Header` reads it and
    `setHeader` stores a changed map back. `Write` returns `(n, err)`. -/
structure ResponseWriter (σ : Type) where
  Header : σ → MetalOps.Header
  setHeader : MetalOps.Header → σ → σ
  WriteHeader : Int → σ → σ
  Write : String → σ → (Nat × Option String) × σ

/-- Constant `http.StatusOK`. -/
def StatusOK : Int := 200

/-- Constant `http.StatusInternalServerError`. -/
def StatusInternalServerError : Int := 500

/-! ## middleware.go: responseWriter -/

/-- Go `type responseWriter struct { http.ResponseWriter; status int; written bool }`. -/
structure responseWriter (σ : Type) where
  ResponseWriter : σ
  status : Int
  written : Bool

/-- Go `func (rw *responseWriter) WriteHeader(statusCode int)`. -/
def responseWriter.WriteHeader {σ : Type} (W : MetalOps.ResponseWriter σ) (statusCode : Int)
    (rw : responseWriter σ) : responseWriter σ :=
  let rw1 := { rw with status := statusCode }
  let rw2 := { rw1 with written := true }
  { rw2 with ResponseWriter := W.WriteHeader statusCode rw2.ResponseWriter }

/-- Go `func (rw *responseWriter) Write(b []byte) (int, error)`. -/
def responseWriter.Write {σ : Type} (W : MetalOps.ResponseWriter σ) (b : String)
    (rw : responseWriter σ) : (Nat × Option String) × responseWriter σ :=
  let rw1 := if !rw.written then responseWriter.WriteHeader W StatusOK rw else rw
  let res := W.Write b rw1.ResponseWriter
  (res.1, { rw1 with ResponseWriter := res.2 })

/-- The method table of `*responseWriter`: `WriteHeader` and `Write` are its own,
    `Header` is promoted from the embedded `http.ResponseWriter`. -/
def responseWriter.methods {σ : Type} (W : MetalOps.ResponseWriter σ) :
    MetalOps.ResponseWriter (responseWriter σ) where
  Header := fun rw => W.Header rw.ResponseWriter
  setHeader := fun h rw => { rw with ResponseWriter := W.setHeader h rw.ResponseWriter }
  WriteHeader := responseWriter.WriteHeader W
  Write := responseWriter.Write W

/-- A sequence of `WriteHeader` calls on a `responseWriter`, in order. -/
def responseWriter.WriteHeaders {σ : Type} (W : MetalOps.ResponseWriter σ) (codes : List Int)
    (rw : responseWriter σ) : responseWriter σ :=
  codes.foldl (fun acc c => responseWriter.WriteHeader W c acc) rw

/-- The same sequence of `WriteHeader` calls made directly on the underlying writer. -/
def ResponseWriter.WriteHeaders {σ : Type} (W : MetalOps.ResponseWriter σ) (codes : List Int)
    (w : σ) : σ :=
  codes.foldl (fun acc c => W.WriteHeader c acc) w

/-! ## A writer that records the calls it receives -/

/-- One method call received by a response writer. -/
inductive Call where
  | WriteHeader (statusCode : Int)
  | Write (b : String)
  deriving DecidableEq, Repr

/-- An `http.ResponseWriter` that only logs the calls made on it; `Write` reports
    the whole slice as written. -/
def callLog : MetalOps.ResponseWriter (List Call) where
  Header := fun _ => Values.empty
  setHeader := fun _ s => s
  WriteHeader := fun c s => s ++ [Call.WriteHeader c]
  Write := fun b s => ((b.utf8ByteSize, none), s ++ [Call.Write b])

/-! ## net/http: requests, the recording writer, `http.Error` -/

/-- Go `url.URL`, the parts the handlers read. `Query` is the map returned by
    the method `URL.Query()`. -/
structure URL where
  Path : String
  Query : Values

/-- Go `http.Request`, the parts the handlers read. `PathValue` gives the
    wildcards matched by the mux (`req.PathValue("name")`). -/
structure Request where
  Method : String
  URL : MetalOps.URL
  RemoteAddr : String
  PathValue : String → String

/-- The response as recorded by Go's reference recording implementation of
    `http.ResponseWriter` (`httptest.ResponseRecorder`): the status and the header
    snapshot fixed by the first `WriteHeader`, and the body written. -/
structure ResponseRecorder where
  Code : Int
  HeaderMap : Header
  Body : String
  wroteHeader : Bool
  snapHeader : Header

/-- A recorder on which nothing has been written yet and whose header map
    is `h` (Go `httptest.NewRecorder()` followed by header mutations). -/
def NewRecorder (h : Header) : ResponseRecorder :=
  { Code := 200, HeaderMap := h, Body := "", wroteHeader := false, snapHeader := Values.empty }

/-- Go `func (rw *ResponseRecorder) WriteHeader(code int)`: only the first call counts.
    (The check that panics on a code outside 100..999 is left out; the handlers
    of this package pass 200 and 500.) -/
def ResponseRecorder.WriteHeader (code : Int) (rw : ResponseRecorder) : ResponseRecorder :=
  if rw.wroteHeader then rw
  else { rw with Code := code, wroteHeader := true, snapHeader := rw.HeaderMap }

/-- Go `func (rw *ResponseRecorder) Write(buf []byte) (int, error)`: an implicit
    `WriteHeader(200)` on the first write, with the Content-Type sniffed by
    `DetectContentType` when none is set. -/
def ResponseRecorder.Write (DetectContentType : String → String) (buf : String)
    (rw : ResponseRecorder) : (Nat × Option String) × ResponseRecorder :=
  let rw1 :=
    if rw.wroteHeader then rw
    else
      let m := rw.HeaderMap
      let hasType := m "Content-Type" ≠ []
      let hasTE := m.Get "Transfer-Encoding" ≠ ""
      let m1 := if !hasType && !hasTE then m.Set "Content-Type" (DetectContentType buf) else m
      ResponseRecorder.WriteHeader 200 { rw with HeaderMap := m1 }
  ((buf.utf8ByteSize, none), { rw1 with Body := rw1.Body ++ buf })

/-- The method table of the recording writer. -/
def recorder (DetectContentType : String → String) : ResponseWriter ResponseRecorder where
  Header := fun rw => rw.HeaderMap
  setHeader := fun h rw => { rw with HeaderMap := h }
  WriteHeader := ResponseRecorder.WriteHeader
  Write := ResponseRecorder.Write DetectContentType

/-- Status code of the response sent (Go `ResponseRecorder.Result().StatusCode`). -/
def ResponseRecorder.StatusCode (rw : ResponseRecorder) : Int :=
  if rw.Code = 0 then 200 else rw.Code

/-- Headers of the response sent (Go `ResponseRecorder.Result().Header`): the
    snapshot taken when the header was written. -/
def ResponseRecorder.ResultHeader (rw : ResponseRecorder) : Header :=
  if rw.wroteHeader then rw.snapHeader else rw.HeaderMap

/-- Go `http.Error(w, error, code)`: deletes Content-Length, sets Content-Type to
    plain text and X-Content-Type-Options to nosniff, writes the header with
    `code`, then prints the message and a newline (`fmt.Fprintln(w, error)`). -/
def Error {σ : Type} (W : ResponseWriter σ) (w : σ) (error : String) (code : Int) : σ :=
  let h := W.Header w
  let h := h.Del "Content-Length"
  let h := h.Set "Content-Type" "text/plain; charset=utf-8"
  let h := h.Set "X-Content-Type-Options" "nosniff"
  let w := W.setHeader h w
  let w := W.WriteHeader code w
  (W.Write (error ++ "\n") w).2

/-! ## log/slog -/

/-- Go `slog.Value`, the kinds used by the handlers. -/
inductive Value where
  | String (s : String)
  | Int (i : Int)
  | Duration (d : Int)
  | Any (v : Values)

/-- One structured log record. -/
structure Record where
  groups : List String
  level : String
  msg : String
  attrs : List (String × Value)

/-- Go `*slog.Logger`: the groups opened on it. -/
structure Logger where
  groups : List String

/-- Go `Logger.WithGroup`. -/
def Logger.WithGroup (l : Logger) (name : String) : Logger :=
  { groups := l.groups ++ [name] }

/-- Go `Logger.Info(msg, attrs...)`: the record handed to the log handler. -/
def Logger.Info (l : Logger) (msg : String) (attrs : List (String × Value)) : Record :=
  { groups := l.groups, level := "INFO", msg := msg, attrs := attrs }

/-- The value of the first attribute with the given key. -/
def Record.attr (r : Record) (key : String) : Option Value :=
  (r.attrs.find? (fun a => a.1 == key)).map (fun a => a.2)

/-- Go `pb.ReadReportDataRequest` (opaque API): a field is either unset or set
    to a string. -/
structure ReadReportDataRequest where
  Zone : Option String := none
  Cluster : Option String := none
  Host : Option String := none
  deriving DecidableEq, Repr

def ReadReportDataRequest.SetZone (req : ReadReportDataRequest) (v : String) :
    ReadReportDataRequest := { req with Zone := some v }

def ReadReportDataRequest.SetCluster (req : ReadReportDataRequest) (v : String) :
    ReadReportDataRequest := { req with Cluster := some v }

def ReadReportDataRequest.SetHost (req : ReadReportDataRequest) (v : String) :
    ReadReportDataRequest := { req with Host := some v }

/-- A call on a collaborator, in the order the calls are made. -/
inductive Event where
  | Log (r : Record)
  | Sub
  | ParseFS
  | ReadReportData (req : ReadReportDataRequest)

/-! ## middleware.go: LoggingMiddleware -/

/-- What a call `h.ServeHTTP(w, r)` leaves behind: the writer and the request
    (both passed by reference), the calls it made on collaborators, and
    whether it returned (`none`) or panicked with a value. -/
structure Result (σ : Type) where
  w : σ
  r : Request
  events : List Event
  panicked : Option String

/-- Go `http.Handler`: it works with whatever implementation of
    `http.ResponseWriter` it is handed. -/
def Handler : Type 1 := (σ : Type) → ResponseWriter σ → σ → Request → Result σ

/-- Go `LoggingMiddleware(logger)(next)`. `t0` is the reading of `time.Now()` on
    entry and `t1` the clock when the deferred function runs, so
    `time.Since(t0)` is `t1 - t0`. The deferred function runs when
    `next.ServeHTTP` returns and when it panics; the panic then continues. -/
def LoggingMiddleware (logger : Logger) (t0 t1 : Int) (next : Handler) : Handler :=
  fun σ W w r =>
    let rw : responseWriter σ := { ResponseWriter := w, status := 0, written := false }
    let res := next σ W w r
    let record := logger.Info "handler"
      [("method", Value.String res.r.Method),
       ("path", Value.String res.r.URL.Path),
       ("query", Value.Any res.r.URL.Query),
       ("status", Value.Int rw.status),
       ("remote", Value.String res.r.RemoteAddr),
       ("duration", Value.Duration (t1 - t0))]
    { res with events := res.events ++ [Event.Log record] }

/-! ## strconv and fmt: the `%q` verb -/

/-- The double quote, Go `'"'`. -/
def dquote : Char := Char.ofNat 34

/-- The backslash, Go `'\\'`. -/
def backslash : Char := Char.ofNat 92

/-- Go `lowerhex[n & 0xF]`. -/
def lowerhex (n : Nat) : Char :=
  "0123456789abcdef".data.getD (n % 16) (Char.ofNat 48)

/-- Go `strconv.IsPrint`: the Latin-1 fast path is in the source; beyond it the
    function consults Unicode tables, taken here as the parameter `table`. -/
def IsPrint (table : Char → Bool) (r : Char) : Bool :=
  if r.toNat ≤ 0xFF then
    if 0x20 ≤ r.toNat && r.toNat ≤ 0x7E then true
    else if 0xA1 ≤ r.toNat && r.toNat ≤ 0xFF then r.toNat != 0xAD
    else false
  else table r

/-- Go `strconv.appendEscapedRune(buf, r, '"', false, false)`: the characters
    appended for one rune of the quoted string. -/
def appendEscapedRune (table : Char → Bool) (r : Char) : List Char :=
  if r = dquote || r = backslash then [backslash, r]
  else if IsPrint table r then [r]
  else if r.toNat = 7 then [backslash, Char.ofNat 97]
  else if r.toNat = 8 then [backslash, Char.ofNat 98]
  else if r.toNat = 12 then [backslash, Char.ofNat 102]
  else if r.toNat = 10 then [backslash, Char.ofNat 110]
  else if r.toNat = 13 then [backslash, Char.ofNat 114]
  else if r.toNat = 9 then [backslash, Char.ofNat 116]
  else if r.toNat = 11 then [backslash, Char.ofNat 118]
  else if r.toNat < 0x20 || r.toNat = 0x7f then
    [backslash, Char.ofNat 120, lowerhex (r.toNat / 16), lowerhex r.toNat]
  else if r.toNat < 0x10000 then
    [backslash, Char.ofNat 117, lowerhex (r.toNat / 4096), lowerhex (r.toNat / 256),
      lowerhex (r.toNat / 16), lowerhex r.toNat]
  else
    [backslash, Char.ofNat 85, lowerhex (r.toNat / 268435456), lowerhex (r.toNat / 16777216),
      lowerhex (r.toNat / 1048576), lowerhex (r.toNat / 65536), lowerhex (r.toNat / 4096),
      lowerhex (r.toNat / 256), lowerhex (r.toNat / 16), lowerhex r.toNat]

/-- Go `strconv.Quote(s)`, which is what `%q` prints for a string: the string in
    double quotes with every rune escaped as above. A `String` is valid UTF-8, so
    the branch for invalid bytes does not arise. -/
def Quote (table : Char → Bool) (s : String) : String :=
  String.mk ([dquote] ++ s.data.flatMap (appendEscapedRune table) ++ [dquote])

/-- The string `sub` occurs in `s` as a contiguous run of characters. -/
def Contains (s sub : String) : Prop := sub.data <:+: s.data

instance (s sub : String) : Decidable (Contains s sub) :=
  inferInstanceAs (Decidable (sub.data <:+: s.data))

/-! ## text/template -/

/-- Go `*template.Template`: the name of the root template and the templates
    associated with it, each given by what executing it on a value yields: the
    bytes written, or the execution error. -/
structure Template (δ : Type) where
  name : String
  tmpl : String → Option (δ → Except String String)

/-- Go `(*Template).ExecuteTemplate(wr, name, data)` with `wr` a fresh buffer. -/
def Template.ExecuteTemplate {δ : Type} (table : Char → Bool) (t : Template δ)
    (name : String) (data : δ) : Except String String :=
  match t.tmpl name with
  | none => Except.error ("template: no template " ++ Quote table name ++
      " associated with template " ++ Quote table t.name)
  | some exec => exec data

/-! ## report.go: Reporter -/

/-- The ways a Go call ends: a value, a non-nil `error` (its message), or a panic. -/
inductive Ret (α : Type) where
  | ok (a : α)
  | err (msg : String)
  | panic (v : String)

/-- One entry visited by `fs.WalkDir`: its path, whether it is a directory, and
    the error passed to the callback, if any. -/
structure WalkEntry where
  path : String
  isDir : Bool
  err : Option String

/-- What the collaborators of the Reporter answer while one request is served.
    * `Sub`: `fs.Sub(reports, "reports")`, the entries `fs.WalkDir` will visit, or an error;
    * `ParseFS`: the templates parsed from `*.tmpl`, or the parse error;
    * `ReadReportData`: the backend call, `resp.GetData()` or the error;
    * `Unmarshal`: `json.Unmarshal` into `metal.ReportData` (the type `δ`);
    * `table`: the Unicode tables behind `strconv.IsPrint`. -/
structure Env (δ : Type) where
  Sub : Except String (List WalkEntry)
  ParseFS : List WalkEntry → Except String (String → Option (δ → Except String String))
  ReadReportData : ReadReportDataRequest → Except String String
  Unmarshal : String → Except String δ
  table : Char → Bool

/-- Go `type Reporter struct`; the `Client` is reached through `Env`. -/
structure Reporter (δ : Type) where
  Logger : MetalOps.Logger
  initialized : Bool
  tmpl : Option (Template δ)

/-- Go `type reportScope struct`. -/
structure reportScope where
  Zone : String
  Cluster : String
  Host : String

/-- Go `logFiles`: `fs.WalkDir` calls the function on each entry and stops with
    the first error the function returns. -/
def logFiles (fsys : List WalkEntry) (logger : Logger) : List Event × Option String :=
  match fsys with
  | [] => ([], none)
  | d :: rest =>
    match d.err with
    | some err => ([], some err)
    | none =>
      let ev := if !d.isDir then [Event.Log (logger.Info "found" [("file", Value.String d.path)])]
        else []
      let tail := logFiles rest logger
      (ev ++ tail.1, tail.2)

/-- Go `func (r *Reporter) init() error`: the Reporter afterwards, the calls made
    and the error returned (`none` for `nil`). -/
def Reporter.init {δ : Type} (env : Env δ) (r : Reporter δ) :
    Reporter δ × List Event × Option String :=
  match env.Sub with
  | Except.error err => (r, [Event.Sub], some err)
  | Except.ok repfs =>
    match logFiles repfs (r.Logger.WithGroup "templates") with
    | (evs, some err) => (r, [Event.Sub] ++ evs, some err)
    | (evs, none) =>
      match env.ParseFS repfs with
      | Except.error err =>
        (r, [Event.Sub] ++ evs ++ [Event.ParseFS], some ("failed to parse template: " ++ err))
      | Except.ok parsed =>
        let tmpl : Template δ := { name := "mops", tmpl := parsed }
        let r1 := { r with tmpl := some tmpl }
        let r2 := { r1 with initialized := true }
        (r2, [Event.Sub] ++ evs ++ [Event.ParseFS], none)

/-- The request built at the top of `Reporter.report`. -/
def buildRequest (scope : reportScope) : ReadReportDataRequest :=
  let req : ReadReportDataRequest := {}
  let req := if scope.Zone ≠ "" then req.SetZone scope.Zone else req
  let req := if scope.Cluster ≠ "" then req.SetCluster scope.Cluster else req
  let req := if scope.Host ≠ "" then req.SetHost scope.Host else req
  req

/-- Go `func (r *Reporter) report(scope reportScope, name string) ([]byte, error)`:
    the calls made and how the call ends. A nil `r.tmpl` makes
    `ExecuteTemplate` panic. -/
def Reporter.report {δ : Type} (env : Env δ) (r : Reporter δ) (scope : reportScope)
    (name : String) : List Event × Ret String :=
  let req := buildRequest scope
  match env.ReadReportData req with
  | Except.error err => ([Event.ReadReportData req], Ret.err err)
  | Except.ok resp =>
    match env.Unmarshal resp with
    | Except.error err => ([Event.ReadReportData req], Ret.err err)
    | Except.ok data =>
      match r.tmpl with
      | none => ([Event.ReadReportData req], Ret.panic "nil pointer dereference")
      | some t =>
        match t.ExecuteTemplate env.table (name ++ ".tmpl") data with
        | Except.error err =>
          ([Event.ReadReportData req],
            Ret.err ("failed to execute template " ++ Quote env.table name ++ ": " ++ err))
        | Except.ok buf => ([Event.ReadReportData req], Ret.ok buf)

/-- What `Reporter.ServeHTTP` leaves behind: the Reporter (a pointer receiver),
    the writer, the calls made, and whether it panicked. -/
structure Served (σ δ : Type) where
  reporter : Reporter δ
  w : σ
  events : List Event
  panicked : Option String

/-- Go `func (r *Reporter) ServeHTTP(w http.ResponseWriter, req *http.Request)`. -/
def Reporter.ServeHTTP {σ δ : Type} (env : Env δ) (W : ResponseWriter σ) (r : Reporter δ)
    (w : σ) (req : Request) : Served σ δ :=
  let i := if !r.initialized then r.init env else (r, [], none)
  match i with
  | (r1, evs, some err) =>
    { reporter := r1, w := Error W w err StatusInternalServerError, events := evs,
      panicked := none }
  | (r1, evs, none) =>
    let q := req.URL.Query
    let scope : reportScope :=
      { Zone := q.Get "zone", Cluster := q.Get "cluster", Host := q.Get "host" }
    let name := req.PathValue "name"
    match r1.report env scope name with
    | (calls, Ret.panic v) =>
      { reporter := r1, w := w, events := evs ++ calls, panicked := some v }
    | (calls, Ret.err err) =>
      { reporter := r1, w := Error W w err StatusInternalServerError, events := evs ++ calls,
        panicked := none }
    | (calls, Ret.ok b) =>
      let w1 := W.setHeader ((W.Header w).Set "Content-Type" "text/html") w
      let res := W.Write b w1
      match res.1.2 with
      | some err =>
        { reporter := r1, w := Error W res.2 err StatusInternalServerError,
          events := evs ++ calls, panicked := none }
      | none => { reporter := r1, w := res.2, events := evs ++ calls, panicked := none }

/-- The Reporter as an `http.Handler`, as registered on the mux. -/
def Reporter.handler {δ : Type} (env : Env δ) (r : Reporter δ) : Handler :=
  fun _ W w req =>
    let s := r.ServeHTTP env W w req
    { w := s.w, r := req, events := s.events, panicked := s.panicked }

/-- The Reporter serving a sequence of requests one after another, each with its
    own collaborators' answers and its own writer; the Reporter afterwards and
    all calls made. -/
def Reporter.serveAll {σ δ : Type} (W : ResponseWriter σ) (r : Reporter δ) :
    List (Env δ × σ × Request) → Reporter δ × List Event
  | [] => (r, [])
  | (env, w, req) :: rest =>
    let s := r.ServeHTTP env W w req
    let t := Reporter.serveAll W s.reporter rest
    (t.1, s.events ++ t.2)

/-- Whether a call is one that only `Reporter.init` makes. -/
def Event.isInit : Event → Bool
  | Event.Sub => true
  | Event.ParseFS => true
  | _ => false

/-- Whether a call is the backend read call. -/
def Event.isBackend : Event → Bool
  | Event.ReadReportData _ => true
  | _ => false

/-- The first step of `Reporter.ServeHTTP`: `init` runs when the Reporter is not
    initialized, and nothing happens when it is. -/
def Reporter.ensureInit {δ : Type} (env : Env δ) (r : Reporter δ) :
    Reporter δ × List Event × Option String :=
  if !r.initialized then r.init env else (r, [], none)

/-- The scope `Reporter.ServeHTTP` reads from the query parameters. -/
def scopeOf (req : Request) : reportScope :=
  { Zone := req.URL.Query.Get "zone", Cluster := req.URL.Query.Get "cluster",
    Host := req.URL.Query.Get "host" }

/-- The headers `http.Error` leaves on a writer whose header map was `h`. -/
def errorHeader (h : Header) : Header :=
  ((h.Del "Content-Length").Set "Content-Type" "text/plain; charset=utf-8").Set
    "X-Content-Type-Options" "nosniff"

/-! ## Inputs used in the examples -/

/-- The backend payload of the example, the JSON text `\x7b"hosts":3\x7d`. -/
def examplePayload : String := "\x7b\"hosts\":3\x7d"

/-- Collaborators that all answer: one template `rack-usage.tmpl` that renders
    `Hosts: ` followed by the decoded host count; report data is the count as text. -/
def exampleEnv : Env String :=
  { Sub := Except.ok [⟨".", true, none⟩, ⟨"rack-usage.tmpl", false, none⟩],
    ParseFS := fun _ => Except.ok (fun n =>
      if n = "rack-usage.tmpl" then some (fun hosts => Except.ok ("Hosts: " ++ hosts)) else none),
    ReadReportData := fun _ => Except.ok examplePayload,
    Unmarshal := fun b =>
      if b = examplePayload then Except.ok "3" else Except.error "unexpected end of JSON input",
    table := fun _ => false }

/-- The same collaborators with a backend that is unreachable. -/
def backendDownEnv : Env String :=
  { exampleEnv with ReadReportData := fun _ => Except.error "rpc error: code = Unavailable" }

/-- The same collaborators with a template asset that does not parse. -/
def parseErrorEnv : Env String :=
  { exampleEnv with ParseFS := fun _ => Except.error "template: rack-usage.tmpl:1: unexpected EOF" }

/-- The Reporter as `main` creates it. -/
def newReporter : Reporter String :=
  { Logger := { groups := ["reporter"] }, initialized := false, tmpl := none }

/-- The template set parsed from the example assets. -/
def exampleTemplate : Template String :=
  { name := "mops",
    tmpl := fun n =>
      if n = "rack-usage.tmpl" then some (fun hosts => Except.ok ("Hosts: " ++ hosts)) else none }

/-- The Reporter after a successful `init` with the example assets. -/
def readyReporter : Reporter String :=
  { Logger := { groups := ["reporter"] }, initialized := true, tmpl := some exampleTemplate }

/-- The report name `a"b`: the letter a, a double quote, the letter b. -/
def quotedName : String := String.mk [Char.ofNat 97, dquote, Char.ofNat 98]

/-- A request for the given report name with no query parameters. -/
def requestFor (name : String) : Request :=
  { Method := "GET", URL := { Path := "/report/" ++ name, Query := Values.empty },
    RemoteAddr := "10.0.0.1:4242", PathValue := fun k => if k = "name" then name else "" }


/-- A handler that answers `WriteHeader(500)` on the writer it is given and returns. -/
def handler500 : Handler :=
  fun _ W w r => { w := W.WriteHeader 500 w, r := r, events := [], panicked := none }

/-- A handler that only writes a body on the writer it is given and returns. -/
def handlerBody : Handler :=
  fun _ W w r => { w := (W.Write "ok" w).2, r := r, events := [], panicked := none }

/-- The request `GET /report/rack-usage?zone=us-east`. -/
def exampleRequest : Request :=
  { Method := "GET",
    URL := { Path := "/report/rack-usage", Query := Values.empty.Set "zone" "us-east" },
    RemoteAddr := "10.0.0.1:4242",
    PathValue := fun k => if k = "name" then "rack-usage" else "" }

/-- A `responseWriter` as `LoggingMiddleware` creates it, around an empty call log. -/
def freshWriter : responseWriter (List Call) :=
  { ResponseWriter := [], status := 0, written := false }

/-! ## Theorems: responseWriter -/

theorem WriteHeaders_inner {σ : Type} (W : ResponseWriter σ) (cs : List Int)
    (rw : responseWriter σ) :
    (responseWriter.WriteHeaders W cs rw).ResponseWriter
      = W.WriteHeaders cs rw.ResponseWriter := by
  induction cs generalizing rw with
  | nil => rfl
  | cons c cs ih =>
    simp only [responseWriter.WriteHeaders, ResponseWriter.WriteHeaders, List.foldl_cons] at ih ⊢
    rw [ih]
    rfl

theorem WriteHeaders_status {σ : Type} (W : ResponseWriter σ) (cs : List Int)
    (rw : responseWriter σ) :
    (responseWriter.WriteHeaders W cs rw).status = cs.getLast?.getD rw.status := by
  induction cs generalizing rw with
  | nil => rfl
  | cons c cs ih =>
    simp only [responseWriter.WriteHeaders, List.foldl_cons] at ih ⊢
    rw [ih]
    cases cs with
    | nil => rfl
    | cons d ds => simp [List.getLast?_cons_cons, List.getLast?_eq_getLast]

theorem WriteHeaders_written {σ : Type} (W : ResponseWriter σ) (cs : List Int)
    (rw : responseWriter σ) :
    (responseWriter.WriteHeaders W cs rw).written = (rw.written || !cs.isEmpty) := by
  induction cs generalizing rw with
  | nil => simp [responseWriter.WriteHeaders]
  | cons c cs ih =>
    simp only [responseWriter.WriteHeaders, List.foldl_cons] at ih ⊢
    rw [ih]
    simp [responseWriter.WriteHeader]

/-- C9, as stated, fails: after `WriteHeader(200)` followed by `WriteHeader(500)`
    the recorded status is 500, the code of the last call, and not 200, the code
    of the first call. -/
theorem C9_first_status_counterexample :
    (responseWriter.WriteHeaders callLog [200, 500] freshWriter).status = 500 ∧
    (responseWriter.WriteHeaders callLog [200, 500] freshWriter).status ≠ 200 := by
  decide

/-- C9, amended: for every sequence of `WriteHeader` calls on a `responseWriter`
    over any underlying writer, the recorded status is the status code of the
    last call (the status is unchanged when there is no call), the writer is
    marked as written as soon as there is one call, and the underlying writer has
    received every call, in order, each with its own status code. -/
theorem C9_WriteHeader_records_last {σ : Type} (W : ResponseWriter σ) (codes : List Int)
    (rw : responseWriter σ) :
    (responseWriter.WriteHeaders W codes rw).status = codes.getLast?.getD rw.status ∧
    (responseWriter.WriteHeaders W codes rw).written = (rw.written || !codes.isEmpty) ∧
    (responseWriter.WriteHeaders W codes rw).ResponseWriter
      = W.WriteHeaders codes rw.ResponseWriter ∧
    (∀ log : List Call,
      (responseWriter.WriteHeaders callLog codes
        { ResponseWriter := log, status := rw.status, written := rw.written }).ResponseWriter
        = log ++ codes.map Call.WriteHeader) := by
  refine ⟨WriteHeaders_status W codes rw, WriteHeaders_written W codes rw,
    WriteHeaders_inner W codes rw, ?_⟩
  intro log
  rw [WriteHeaders_inner]
  simp only [ResponseWriter.WriteHeaders]
  induction codes generalizing log with
  | nil => simp
  | cons c cs ih =>
    simp only [List.foldl_cons, List.map_cons]
    rw [ih]
    simp [callLog]

/-- C10: on a `responseWriter` that is not yet written, `Write(b)` records status
    200, marks the writer written, forwards `WriteHeader(200)` to the underlying
    writer and then forwards `b` to it; on a written one it forwards `b` only and
    keeps the recorded status. Either way the result of `Write` is the result of
    the underlying `Write`. -/
theorem C10_Write {σ : Type} (W : ResponseWriter σ) (b : String) (rw : responseWriter σ) :
    (rw.written = false →
      responseWriter.Write W b rw
        = ((W.Write b (W.WriteHeader 200 rw.ResponseWriter)).1,
           { ResponseWriter := (W.Write b (W.WriteHeader 200 rw.ResponseWriter)).2,
             status := 200, written := true })) ∧
    (rw.written = true →
      responseWriter.Write W b rw
        = ((W.Write b rw.ResponseWriter).1,
           { ResponseWriter := (W.Write b rw.ResponseWriter).2,
             status := rw.status, written := true })) ∧
    (∀ log : List Call,
      (responseWriter.Write callLog b
        { ResponseWriter := log, status := rw.status, written := rw.written }).2.ResponseWriter
        = if rw.written then log ++ [Call.Write b]
          else log ++ [Call.WriteHeader 200, Call.Write b]) := by
  refine ⟨?_, ?_, ?_⟩
  · intro h
    simp [responseWriter.Write, responseWriter.WriteHeader, h, StatusOK]
  · intro h
    simp [responseWriter.Write, h]
  · intro log
    cases h : rw.written <;>
      simp [responseWriter.Write, responseWriter.WriteHeader, callLog, StatusOK]

/-- C10 at concrete writers: an unwritten writer and a writer that already
    recorded 404, both over a call log. -/
theorem C10_Write_witness :
    responseWriter.Write callLog "hi" freshWriter
      = ((2, none), { ResponseWriter := [Call.WriteHeader 200, Call.Write "hi"],
                      status := 200, written := true }) ∧
    responseWriter.Write callLog "hi"
        { ResponseWriter := [Call.WriteHeader 404], status := 404, written := true }
      = ((2, none), { ResponseWriter := [Call.WriteHeader 404, Call.Write "hi"],
                      status := 404, written := true }) :=
  ⟨(C10_Write callLog "hi" freshWriter).1 rfl,
   (C10_Write callLog "hi"
      { ResponseWriter := [Call.WriteHeader 404], status := 404, written := true }).2.1 rfl⟩

/-! ## Theorems: LoggingMiddleware -/

/-- The record `LoggingMiddleware` emits after `next` has run. -/
theorem LoggingMiddleware_events (logger : Logger) (t0 t1 : Int) (next : Handler) (σ : Type)
    (W : ResponseWriter σ) (w : σ) (r : Request) :
    (LoggingMiddleware logger t0 t1 next σ W w r).events
      = (next σ W w r).events ++ [Event.Log (logger.Info "handler"
          [("method", Value.String (next σ W w r).r.Method),
           ("path", Value.String (next σ W w r).r.URL.Path),
           ("query", Value.Any (next σ W w r).r.URL.Query),
           ("status", Value.Int 0),
           ("remote", Value.String (next σ W w r).r.RemoteAddr),
           ("duration", Value.Duration (t1 - t0))])] := rfl

/-- Had the handler been handed the capturing writer, the recorded status would
    be the status sent: 500 after `WriteHeader(500)`, 200 after a first `Write`. -/
theorem responseWriter_captures_status {σ : Type} (W : ResponseWriter σ) (w : σ)
    (r : Request) :
    (handler500 (responseWriter σ) (responseWriter.methods W)
      { ResponseWriter := w, status := 0, written := false } r).w.status = 500 ∧
    (handlerBody (responseWriter σ) (responseWriter.methods W)
      { ResponseWriter := w, status := 0, written := false } r).w.status = 200 :=
  ⟨rfl, rfl⟩

/-- C1 fails on the code: the wrapped handler is handed the original writer and
    not the capturing `responseWriter`, so for every handler the record's status
    is 0. With a handler that calls `WriteHeader(500)` the response sent has
    status 500 and the record has status 0; with a handler that only writes a
    body the response has status 200 and the record has status 0; with the
    Reporter as the handler and the backend down the response has status 500 and
    the record has status 0. -/
theorem C1_status_always_zero :
    (∀ (logger : Logger) (t0 t1 : Int) (next : Handler) (σ : Type) (W : ResponseWriter σ)
        (w : σ) (r : Request),
      ∃ record, (LoggingMiddleware logger t0 t1 next σ W w r).events
          = (next σ W w r).events ++ [Event.Log record] ∧
        record.attr "status" = some (Value.Int 0)) ∧
    (∀ (logger : Logger) (t0 t1 : Int) (detect : String → String),
      (LoggingMiddleware logger t0 t1 handler500 ResponseRecorder (recorder detect)
        (NewRecorder Values.empty) exampleRequest).w.StatusCode = 500) ∧
    (∀ (logger : Logger) (t0 t1 : Int) (detect : String → String),
      (LoggingMiddleware logger t0 t1 handlerBody ResponseRecorder (recorder detect)
        (NewRecorder Values.empty) exampleRequest).w.StatusCode = 200) ∧
    (∀ (logger : Logger) (t0 t1 : Int) (detect : String → String),
      (LoggingMiddleware logger t0 t1 (Reporter.handler backendDownEnv readyReporter)
        ResponseRecorder (recorder detect) (NewRecorder Values.empty)
        exampleRequest).w.StatusCode = 500) := by
  refine ⟨?_, ?_, ?_, ?_⟩
  · intro logger t0 t1 next σ W w r
    exact ⟨_, LoggingMiddleware_events logger t0 t1 next σ W w r, rfl⟩
  · intro logger t0 t1 detect
    rfl
  · intro logger t0 t1 detect
    rfl
  · intro logger t0 t1 detect
    rfl

/-- C2: for every request and every wrapped handler, whether the handler returns
    or panics, the middleware makes exactly one logger call, after everything
    the handler did; it leaves the writer as the handler left it and ends as the
    handler ended (a panic continues with the same value). The record carries
    method, path, query and remote address read from the request, a status and
    the duration `t1 - t0`. -/
theorem C2_exactly_one_record (logger : Logger) (t0 t1 : Int) (next : Handler) (σ : Type)
    (W : ResponseWriter σ) (w : σ) (r : Request) :
    ∃ record : Record,
      (LoggingMiddleware logger t0 t1 next σ W w r).events
        = (next σ W w r).events ++ [Event.Log record] ∧
      (LoggingMiddleware logger t0 t1 next σ W w r).panicked = (next σ W w r).panicked ∧
      (LoggingMiddleware logger t0 t1 next σ W w r).w = (next σ W w r).w ∧
      record.attrs.map Prod.fst = ["method", "path", "query", "status", "remote", "duration"] ∧
      record.attr "method" = some (Value.String (next σ W w r).r.Method) ∧
      record.attr "path" = some (Value.String (next σ W w r).r.URL.Path) ∧
      record.attr "query" = some (Value.Any (next σ W w r).r.URL.Query) ∧
      record.attr "remote" = some (Value.String (next σ W w r).r.RemoteAddr) ∧
      (∃ status : Int, record.attr "status" = some (Value.Int status)) ∧
      record.attr "duration" = some (Value.Duration (t1 - t0)) :=
  ⟨_, LoggingMiddleware_events logger t0 t1 next σ W w r, rfl, rfl, rfl, rfl, rfl, rfl, rfl,
    ⟨0, rfl⟩, rfl⟩

/-! ## Theorems: Reporter -/

theorem report_events {δ : Type} (env : Env δ) (r : Reporter δ) (scope : reportScope)
    (name : String) :
    (r.report env scope name).1 = [Event.ReadReportData (buildRequest scope)] := by
  unfold Reporter.report
  simp only
  cases env.ReadReportData (buildRequest scope) with
  | error e => rfl
  | ok resp =>
    simp only
    cases env.Unmarshal resp with
    | error e => rfl
    | ok data =>
      simp only
      cases r.tmpl with
      | none => rfl
      | some t =>
        simp only
        cases t.ExecuteTemplate env.table (name ++ ".tmpl") data <;> rfl

theorem buildRequest_eq (scope : reportScope) :
    buildRequest scope
      = { Zone := if scope.Zone = "" then none else some scope.Zone,
          Cluster := if scope.Cluster = "" then none else some scope.Cluster,
          Host := if scope.Host = "" then none else some scope.Host } := by
  unfold buildRequest ReadReportDataRequest.SetZone ReadReportDataRequest.SetCluster
    ReadReportDataRequest.SetHost
  by_cases hz : scope.Zone = "" <;> by_cases hc : scope.Cluster = "" <;>
    by_cases hh : scope.Host = "" <;> simp [hz, hc, hh]

theorem ServeHTTP_of_initialized {σ δ : Type} (env : Env δ) (W : ResponseWriter σ)
    (r : Reporter δ) (w : σ) (req : Request) (h : r.initialized = true) :
    (r.ServeHTTP env W w req).reporter = r ∧
    (r.ServeHTTP env W w req).events
      = [Event.ReadReportData (buildRequest (scopeOf req))] := by
  have hev := report_events env r (scopeOf req) (req.PathValue "name")
  unfold Reporter.ServeHTTP
  simp only [h, Bool.not_true, Bool.false_eq_true, if_false]
  generalize hrep : r.report env _ _ = out
  change r.report env (scopeOf req) (req.PathValue "name") = out at hrep
  rw [hrep] at hev
  obtain ⟨calls, ret⟩ := out
  simp only at hev
  subst hev
  cases ret with
  | ok b =>
    simp only
    split <;> exact ⟨rfl, rfl⟩
  | err msg => exact ⟨rfl, rfl⟩
  | panic v => exact ⟨rfl, rfl⟩

/-- C3: `Reporter.report` makes exactly one backend call, and the request it
    carries has each of zone, cluster and host set exactly when the scope string
    is not empty, then to the scope's value; this holds for every report name,
    every Reporter and every answer of the collaborators, so the name has no
    influence. A request served by an initialized Reporter carries the filter
    built from its query parameters in the same way. -/
theorem C3_filter_only_populated {δ : Type} (env : Env δ) (r : Reporter δ)
    (scope : reportScope) (name : String) :
    (∃ req : ReadReportDataRequest,
      (r.report env scope name).1 = [Event.ReadReportData req] ∧
      req = { Zone := if scope.Zone = "" then none else some scope.Zone,
              Cluster := if scope.Cluster = "" then none else some scope.Cluster,
              Host := if scope.Host = "" then none else some scope.Host } ∧
      (req.Zone.isSome ↔ scope.Zone ≠ "") ∧
      (req.Cluster.isSome ↔ scope.Cluster ≠ "") ∧
      (req.Host.isSome ↔ scope.Host ≠ "") ∧
      (∀ v, req.Zone = some v → v = scope.Zone) ∧
      (∀ v, req.Cluster = some v → v = scope.Cluster) ∧
      (∀ v, req.Host = some v → v = scope.Host) ∧
      req.Zone ≠ some "" ∧ req.Cluster ≠ some "" ∧ req.Host ≠ some "") ∧
    (∀ (σ : Type) (W : ResponseWriter σ) (w : σ) (rq : Request), r.initialized = true →
      (r.ServeHTTP env W w rq).events
        = [Event.ReadReportData
            { Zone := if rq.URL.Query.Get "zone" = "" then none
                      else some (rq.URL.Query.Get "zone"),
              Cluster := if rq.URL.Query.Get "cluster" = "" then none
                         else some (rq.URL.Query.Get "cluster"),
              Host := if rq.URL.Query.Get "host" = "" then none
                      else some (rq.URL.Query.Get "host") }]) := by
  refine ⟨⟨buildRequest scope, report_events env r scope name, buildRequest_eq scope, ?_⟩, ?_⟩
  · rw [buildRequest_eq]
    by_cases hz : scope.Zone = "" <;> by_cases hc : scope.Cluster = "" <;>
      by_cases hh : scope.Host = "" <;> simp [hz, hc, hh]
  · intro σ W w rq h
    rw [(ServeHTTP_of_initialized env W r w rq h).2, buildRequest_eq]
    rfl

/-- C3 at the request `GET /report/rack-usage?zone=us-east`: the backend request
    has the zone set and neither cluster nor host. -/
theorem C3_filter_only_populated_witness :
    (readyReporter.ServeHTTP exampleEnv (recorder id) (NewRecorder Values.empty)
      exampleRequest).events
      = [Event.ReadReportData { Zone := some "us-east", Cluster := none, Host := none }] :=
  (C3_filter_only_populated exampleEnv readyReporter (scopeOf exampleRequest) "rack-usage").2
    ResponseRecorder (recorder id) (NewRecorder Values.empty) exampleRequest rfl

theorem logFiles_no_backend (fsys : List WalkEntry) (logger : Logger) :
    (logFiles fsys logger).1.all (fun e => !e.isBackend) = true := by
  induction fsys with
  | nil => rfl
  | cons d rest ih =>
    unfold logFiles
    cases d.err with
    | some err => rfl
    | none =>
      simp only [List.all_append, ih, Bool.and_true]
      cases d.isDir <;> rfl

theorem init_spec {δ : Type} (env : Env δ) (r : Reporter δ) :
    (r.init env).2.1.head? = some Event.Sub ∧
    (r.init env).2.1.all (fun e => !e.isBackend) = true ∧
    ((r.init env).2.2 = none →
      (r.init env).1.initialized = true ∧ ∃ t, (r.init env).1.tmpl = some t) ∧
    (∀ err, (r.init env).2.2 = some err → (r.init env).1 = r) := by
  unfold Reporter.init
  cases env.Sub with
  | error e => simp [Event.isBackend]
  | ok repfs =>
    simp only
    have hlf := logFiles_no_backend repfs (r.Logger.WithGroup "templates")
    generalize logFiles repfs (r.Logger.WithGroup "templates") = lf at hlf
    obtain ⟨evs, e⟩ := lf
    cases e with
    | some err =>
      simp only at hlf
      simpa [Event.isBackend] using hlf
    | none =>
      simp only at hlf ⊢
      cases env.ParseFS repfs with
      | error e => simpa [Event.isBackend] using hlf
      | ok parsed => simpa [Event.isBackend] using hlf

theorem ServeHTTP_init_fail {σ δ : Type} (env : Env δ) (W : ResponseWriter σ)
    (r : Reporter δ) (w : σ) (req : Request) (err : String)
    (h : r.initialized = false) (hinit : (r.init env).2.2 = some err) :
    r.ServeHTTP env W w req
      = { reporter := (r.init env).1, w := Error W w err StatusInternalServerError,
          events := (r.init env).2.1, panicked := none } := by
  unfold Reporter.ServeHTTP
  simp only [h, Bool.not_false, if_true]
  generalize r.init env = i at hinit
  obtain ⟨r1, evs, e⟩ := i
  simp only at hinit
  subst hinit
  rfl

theorem ServeHTTP_init_ok {σ δ : Type} (env : Env δ) (W : ResponseWriter σ)
    (r : Reporter δ) (w : σ) (req : Request)
    (h : r.initialized = false) (hinit : (r.init env).2.2 = none) :
    (r.ServeHTTP env W w req).reporter = (r.init env).1 ∧
    (r.ServeHTTP env W w req).events
      = (r.init env).2.1 ++ [Event.ReadReportData (buildRequest (scopeOf req))] := by
  unfold Reporter.ServeHTTP
  simp only [h, Bool.not_false, if_true]
  generalize r.init env = i at hinit
  obtain ⟨r1, evs, e⟩ := i
  simp only at hinit
  subst hinit
  simp only
  have hev := report_events env r1 (scopeOf req) (req.PathValue "name")
  generalize hrep : r1.report env _ _ = out
  change r1.report env (scopeOf req) (req.PathValue "name") = out at hrep
  rw [hrep] at hev
  obtain ⟨calls, ret⟩ := out
  simp only at hev
  subst hev
  cases ret with
  | ok b =>
    simp only
    split <;> exact ⟨rfl, rfl⟩
  | err msg => exact ⟨rfl, rfl⟩
  | panic v => exact ⟨rfl, rfl⟩

theorem serveAll_of_initialized {σ δ : Type} (W : ResponseWriter σ) (r : Reporter δ)
    (h : r.initialized = true) (reqs : List (Env δ × σ × Request)) :
    (Reporter.serveAll W r reqs).1 = r ∧
    (Reporter.serveAll W r reqs).2.all (fun e => !e.isInit) = true := by
  induction reqs with
  | nil => exact ⟨rfl, rfl⟩
  | cons x rest ih =>
    obtain ⟨env, w, req⟩ := x
    have hs := ServeHTTP_of_initialized env W r w req h
    simp only [Reporter.serveAll, hs.1, hs.2]
    exact ⟨ih.1, by simpa [Event.isInit] using ih.2⟩

theorem Error_NewRecorder (detect : String → String) (h : Header) (msg : String) (code : Int) :
    Error (recorder detect) (NewRecorder h) msg code
      = { Code := code, HeaderMap := errorHeader h, Body := msg ++ "\n", wroteHeader := true,
          snapHeader := errorHeader h } := by
  simp [Error, recorder, NewRecorder, ResponseRecorder.WriteHeader, ResponseRecorder.Write,
    errorHeader]


/-- C4: lazy initialization of the Reporter.
    (a) When the Reporter is not initialized and `init` fails with `err`, the
    request is answered by `http.Error(w, err, 500)` (on a recording writer:
    status 500 and body `err` plus a newline), no backend call is made, the
    Reporter is unchanged and so still uninitialized, and the next request,
    whatever it is, starts by running `init` again.
    (b) When `init` succeeds the Reporter is initialized and holds a template set.
    (c) Once the Reporter is initialized, no sequence of later requests, whatever
    the collaborators answer, runs `init` or changes the Reporter: the flag stays
    set and the template set stays the same. -/
theorem C4_lazy_init {σ δ : Type} (W : ResponseWriter σ) (env : Env δ) (r : Reporter δ)
    (w : σ) (req : Request) :
    (r.initialized = false → ∀ err, (r.init env).2.2 = some err →
      (r.ServeHTTP env W w req).reporter = r ∧
      (r.ServeHTTP env W w req).reporter.initialized = false ∧
      (r.ServeHTTP env W w req).w = Error W w err 500 ∧
      (r.ServeHTTP env W w req).panicked = none ∧
      (r.ServeHTTP env W w req).events.all (fun e => !e.isBackend) = true ∧
      (r.ServeHTTP env W w req).events.head? = some Event.Sub ∧
      (∀ (env2 : Env δ) (w2 : σ) (req2 : Request),
        ((r.ServeHTTP env W w req).reporter.ServeHTTP env2 W w2 req2).events.head?
          = some Event.Sub) ∧
      (∀ (detect : String → String) (h : Header),
        (r.ServeHTTP env (recorder detect) (NewRecorder h) req).w.StatusCode = 500 ∧
        (r.ServeHTTP env (recorder detect) (NewRecorder h) req).w.Body = err ++ "\n")) ∧
    (r.initialized = false → (r.init env).2.2 = none →
      (r.ServeHTTP env W w req).reporter.initialized = true ∧
      ∃ t, (r.ServeHTTP env W w req).reporter.tmpl = some t) ∧
    (r.initialized = true → ∀ reqs : List (Env δ × σ × Request),
      (Reporter.serveAll W r reqs).1 = r ∧
      (Reporter.serveAll W r reqs).1.initialized = true ∧
      (Reporter.serveAll W r reqs).2.all (fun e => !e.isInit) = true) := by
  have hhead : ∀ (r0 : Reporter δ) (env2 : Env δ) (w2 : σ) (req2 : Request),
      r0.initialized = false → (r0.ServeHTTP env2 W w2 req2).events.head? = some Event.Sub := by
    intro r0 env2 w2 req2 h0
    have hi := (init_spec env2 r0).1
    cases hres : (r0.init env2).2.2 with
    | some e => rw [ServeHTTP_init_fail env2 W r0 w2 req2 e h0 hres]; exact hi
    | none =>
      rw [(ServeHTTP_init_ok env2 W r0 w2 req2 h0 hres).2]
      cases hl : (r0.init env2).2.1 with
      | nil => rw [hl] at hi; cases hi
      | cons a l => rw [hl] at hi; simpa using hi
  refine ⟨?_, ?_, ?_⟩
  · intro h err herr
    have hr : (r.init env).1 = r := (init_spec env r).2.2.2 err herr
    have hs := ServeHTTP_init_fail env W r w req err h herr
    refine ⟨by rw [hs]; exact hr, by rw [hs]; simp only [hr, h], by rw [hs]; rfl,
      by rw [hs], by rw [hs]; exact (init_spec env r).2.1, by rw [hs]; exact (init_spec env r).1,
      ?_, ?_⟩
    · intro env2 w2 req2
      apply hhead
      rw [hs]
      simp only [hr, h]
    · intro detect hd
      rw [ServeHTTP_init_fail env (recorder detect) r (NewRecorder hd) req err h herr]
      rw [Error_NewRecorder]
      exact ⟨rfl, rfl⟩
  · intro h hok
    rw [(ServeHTTP_init_ok env W r w req h hok).1]
    exact (init_spec env r).2.2.1 hok
  · intro h reqs
    have hs := serveAll_of_initialized W r h reqs
    exact ⟨hs.1, by rw [hs.1]; exact h, hs.2⟩

/-- C4 at concrete inputs: a fresh Reporter whose template asset does not parse
    answers 500 with the parse error and stays uninitialized; with assets that
    parse it becomes initialized; the initialized Reporter stays so over two
    requests, one of them with the backend down. -/
theorem C4_lazy_init_witness :
    ((newReporter.ServeHTTP parseErrorEnv (recorder id) (NewRecorder Values.empty)
        exampleRequest).w.StatusCode = 500 ∧
     (newReporter.ServeHTTP parseErrorEnv (recorder id) (NewRecorder Values.empty)
        exampleRequest).w.Body
        = "failed to parse template: template: rack-usage.tmpl:1: unexpected EOF" ++ "\n" ∧
     (newReporter.ServeHTTP parseErrorEnv (recorder id) (NewRecorder Values.empty)
        exampleRequest).reporter.initialized = false) ∧
    (newReporter.ServeHTTP exampleEnv (recorder id) (NewRecorder Values.empty)
        exampleRequest).reporter.initialized = true ∧
    (Reporter.serveAll (recorder id) readyReporter
        [(backendDownEnv, NewRecorder Values.empty, exampleRequest),
         (exampleEnv, NewRecorder Values.empty, exampleRequest)]).1.initialized = true :=
  ⟨⟨((C4_lazy_init (recorder id) parseErrorEnv newReporter (NewRecorder Values.empty)
        exampleRequest).1 rfl _ rfl).2.2.2.2.2.2.2 id Values.empty |>.1,
    ((C4_lazy_init (recorder id) parseErrorEnv newReporter (NewRecorder Values.empty)
        exampleRequest).1 rfl _ rfl).2.2.2.2.2.2.2 id Values.empty |>.2,
    ((C4_lazy_init (recorder id) parseErrorEnv newReporter (NewRecorder Values.empty)
        exampleRequest).1 rfl _ rfl).2.1⟩,
   ((C4_lazy_init (recorder id) exampleEnv newReporter (NewRecorder Values.empty)
        exampleRequest).2.1 rfl rfl).1,
   ((C4_lazy_init (recorder id) exampleEnv readyReporter (NewRecorder Values.empty)
        exampleRequest).2.2 rfl _).2.1⟩


/-! ## Theorems: the outcomes of a request on an initialized Reporter -/

theorem Contains_refl (s : String) : Contains s s := List.infix_refl _

theorem Contains_append_left (s t sub : String) (h : Contains s sub) :
    Contains (s ++ t) sub := by
  obtain ⟨a, b, hab⟩ := h
  refine ⟨a, b ++ t.data, ?_⟩
  simp [String.data_append, ← hab]

theorem Contains_append_right (s t sub : String) (h : Contains t sub) :
    Contains (s ++ t) sub := by
  obtain ⟨a, b, hab⟩ := h
  refine ⟨s.data ++ a, b, ?_⟩
  simp [String.data_append, ← hab]

theorem report_backend_fail {δ : Type} (env : Env δ) (r : Reporter δ) (scope : reportScope)
    (name msg : String) (h : env.ReadReportData (buildRequest scope) = Except.error msg) :
    (r.report env scope name).2 = Ret.err msg := by
  unfold Reporter.report
  simp only [h]

theorem report_decode_fail {δ : Type} (env : Env δ) (r : Reporter δ) (scope : reportScope)
    (name msg resp : String) (h : env.ReadReportData (buildRequest scope) = Except.ok resp)
    (hd : env.Unmarshal resp = Except.error msg) :
    (r.report env scope name).2 = Ret.err msg := by
  unfold Reporter.report
  simp only [h, hd]

theorem report_template_fail {δ : Type} (env : Env δ) (r : Reporter δ) (t : Template δ)
    (scope : reportScope) (name msg resp : String) (data : δ) (ht : r.tmpl = some t)
    (h : env.ReadReportData (buildRequest scope) = Except.ok resp)
    (hd : env.Unmarshal resp = Except.ok data)
    (hx : t.ExecuteTemplate env.table (name ++ ".tmpl") data = Except.error msg) :
    (r.report env scope name).2
      = Ret.err ("failed to execute template " ++ Quote env.table name ++ ": " ++ msg) := by
  unfold Reporter.report
  simp only [h, hd, ht, hx]

theorem report_ok {δ : Type} (env : Env δ) (r : Reporter δ) (t : Template δ)
    (scope : reportScope) (name buf resp : String) (data : δ) (ht : r.tmpl = some t)
    (h : env.ReadReportData (buildRequest scope) = Except.ok resp)
    (hd : env.Unmarshal resp = Except.ok data)
    (hx : t.ExecuteTemplate env.table (name ++ ".tmpl") data = Except.ok buf) :
    (r.report env scope name).2 = Ret.ok buf := by
  unfold Reporter.report
  simp only [h, hd, ht, hx]

theorem report_err_cases {δ : Type} (env : Env δ) (r : Reporter δ) (scope : reportScope)
    (name e : String) (h : (r.report env scope name).2 = Ret.err e) :
    env.ReadReportData (buildRequest scope) = Except.error e ∨
    (∃ resp, env.ReadReportData (buildRequest scope) = Except.ok resp ∧
      env.Unmarshal resp = Except.error e) ∨
    (∃ resp data t msg, env.ReadReportData (buildRequest scope) = Except.ok resp ∧
      env.Unmarshal resp = Except.ok data ∧ r.tmpl = some t ∧
      t.ExecuteTemplate env.table (name ++ ".tmpl") data = Except.error msg ∧
      e = "failed to execute template " ++ Quote env.table name ++ ": " ++ msg) := by
  unfold Reporter.report at h
  simp only at h
  cases hb : env.ReadReportData (buildRequest scope) with
  | error e1 =>
    rw [hb] at h
    simp only [Ret.err.injEq] at h
    exact Or.inl (by rw [h])
  | ok resp =>
    rw [hb] at h
    simp only at h
    cases hd : env.Unmarshal resp with
    | error e1 =>
      rw [hd] at h
      simp only [Ret.err.injEq] at h
      exact Or.inr (Or.inl ⟨resp, rfl, by rw [hd, h]⟩)
    | ok data =>
      rw [hd] at h
      simp only at h
      cases ht : r.tmpl with
      | none =>
        rw [ht] at h
        cases h
      | some t =>
        rw [ht] at h
        simp only at h
        cases hx : t.ExecuteTemplate env.table (name ++ ".tmpl") data with
        | error msg =>
          rw [hx] at h
          simp only [Ret.err.injEq] at h
          exact Or.inr (Or.inr ⟨resp, data, t, msg, rfl, hd, rfl, hx, h.symm⟩)
        | ok buf =>
          rw [hx] at h
          cases h

theorem ServeHTTP_unfold {σ δ : Type} (env : Env δ) (W : ResponseWriter σ) (r : Reporter δ)
    (w : σ) (req : Request) :
    r.ServeHTTP env W w req
      = match r.ensureInit env with
        | (r1, evs, some err) =>
          { reporter := r1, w := Error W w err StatusInternalServerError, events := evs,
            panicked := none }
        | (r1, evs, none) =>
          match r1.report env (scopeOf req) (req.PathValue "name") with
          | (calls, Ret.panic v) =>
            { reporter := r1, w := w, events := evs ++ calls, panicked := some v }
          | (calls, Ret.err err) =>
            { reporter := r1, w := Error W w err StatusInternalServerError,
              events := evs ++ calls, panicked := none }
          | (calls, Ret.ok b) =>
            match (W.Write b (W.setHeader ((W.Header w).Set "Content-Type" "text/html") w)).1.2 with
            | some err =>
              { reporter := r1,
                w := Error W
                  (W.Write b (W.setHeader ((W.Header w).Set "Content-Type" "text/html") w)).2
                  err StatusInternalServerError,
                events := evs ++ calls, panicked := none }
            | none =>
              { reporter := r1,
                w := (W.Write b (W.setHeader ((W.Header w).Set "Content-Type" "text/html") w)).2,
                events := evs ++ calls, panicked := none } := rfl

theorem ServeHTTP_fail {σ δ : Type} (env : Env δ) (W : ResponseWriter σ) (r : Reporter δ)
    (w : σ) (req : Request) (e : String)
    (hfail : (r.ensureInit env).2.2 = some e ∨
      ((r.ensureInit env).2.2 = none ∧
        ((r.ensureInit env).1.report env (scopeOf req) (req.PathValue "name")).2 = Ret.err e)) :
    (r.ServeHTTP env W w req).w = Error W w e StatusInternalServerError ∧
    (r.ServeHTTP env W w req).panicked = none := by
  rw [ServeHTTP_unfold]
  generalize r.ensureInit env = i at hfail
  obtain ⟨r1, evs, ie⟩ := i
  rcases hfail with h | ⟨h, hrep⟩
  · simp only at h
    subst h
    exact ⟨rfl, rfl⟩
  · simp only at h hrep
    subst h
    simp only
    generalize r1.report env (scopeOf req) (req.PathValue "name") = out at hrep
    obtain ⟨calls, ret⟩ := out
    simp only at hrep
    subst hrep
    exact ⟨rfl, rfl⟩

theorem ensureInit_of_initialized {δ : Type} (env : Env δ) (r : Reporter δ)
    (h : r.initialized = true) : r.ensureInit env = (r, [], none) := by
  simp [Reporter.ensureInit, h]

theorem ServeHTTP_ok {δ : Type} (detect : String → String) (h : Header) (env : Env δ)
    (r : Reporter δ) (req : Request) (b : String) (hinit : r.initialized = true)
    (hrep : (r.report env (scopeOf req) (req.PathValue "name")).2 = Ret.ok b) :
    (r.ServeHTTP env (recorder detect) (NewRecorder h) req).w
      = { Code := 200, HeaderMap := h.Set "Content-Type" "text/html", Body := b,
          wroteHeader := true, snapHeader := h.Set "Content-Type" "text/html" } ∧
    (r.ServeHTTP env (recorder detect) (NewRecorder h) req).panicked = none := by
  rw [ServeHTTP_unfold, ensureInit_of_initialized env r hinit]
  simp only
  generalize r.report env (scopeOf req) (req.PathValue "name") = out at hrep
  obtain ⟨calls, ret⟩ := out
  simp only at hrep
  subst hrep
  simp [recorder, NewRecorder, ResponseRecorder.Write, ResponseRecorder.WriteHeader,
    Values.Set]


theorem Quote_plain (table : Char → Bool) (s : String)
    (h : ∀ c ∈ s.data, c ≠ dquote ∧ c ≠ backslash ∧ IsPrint table c = true) :
    Quote table s = String.mk ([dquote] ++ s.data ++ [dquote]) := by
  unfold Quote
  have key : ∀ l : List Char, (∀ c ∈ l, c ≠ dquote ∧ c ≠ backslash ∧ IsPrint table c = true) →
      l.flatMap (appendEscapedRune table) = l := by
    intro l
    induction l with
    | nil => intro _; rfl
    | cons c cs ih =>
      intro hl
      have hc := hl c (List.mem_cons_self c cs)
      have hcs := ih (fun d hd => hl d (List.mem_cons_of_mem c hd))
      simp only [List.flatMap_cons, hcs]
      simp [appendEscapedRune, hc.1, hc.2.1, hc.2.2]
  rw [key s.data h]

theorem Contains_Quote_plain (table : Char → Bool) (s : String)
    (h : ∀ c ∈ s.data, c ≠ dquote ∧ c ≠ backslash ∧ IsPrint table c = true) :
    Contains (Quote table s) s := by
  rw [Quote_plain table s h]
  exact ⟨[dquote], [dquote], rfl⟩

theorem Error_header (h : Header) :
    errorHeader h "Content-Type" = ["text/plain; charset=utf-8"] ∧
    ∀ k, k ≠ "Content-Type" → k ≠ "X-Content-Type-Options" → k ≠ "Content-Length" →
      errorHeader h k = h k := by
  refine ⟨by simp [errorHeader, Values.Set], ?_⟩
  intro k h1 h2 h3
  simp [errorHeader, Values.Set, Values.Del, h1, h2, h3]

/-- C5: on an initialized Reporter, when the backend call fails, or the payload
    does not decode, or the template fails to execute, each with message `msg`,
    then `report` returns an error and no bytes, the error's message contains
    `msg`, and `ServeHTTP` answers by `http.Error` with status 500: on a
    recording writer the status is 500 and the body is exactly the error message
    and a newline, so it contains `msg` and no rendered bytes. Exactly one backend
    call is made, the Reporter is unchanged and nothing panics. -/
theorem C5_failure_is_500 {δ : Type} (detect : String → String) (h : Header) (env : Env δ)
    (r : Reporter δ) (t : Template δ) (req : Request) (msg : String)
    (hinit : r.initialized = true) (htmpl : r.tmpl = some t)
    (hfail : env.ReadReportData (buildRequest (scopeOf req)) = Except.error msg ∨
      (∃ resp, env.ReadReportData (buildRequest (scopeOf req)) = Except.ok resp ∧
        env.Unmarshal resp = Except.error msg) ∨
      (∃ resp data, env.ReadReportData (buildRequest (scopeOf req)) = Except.ok resp ∧
        env.Unmarshal resp = Except.ok data ∧
        t.ExecuteTemplate env.table (req.PathValue "name" ++ ".tmpl") data
          = Except.error msg)) :
    ∃ err : String,
      (r.report env (scopeOf req) (req.PathValue "name")).2 = Ret.err err ∧
      Contains err msg ∧
      (r.ServeHTTP env (recorder detect) (NewRecorder h) req).w.StatusCode = 500 ∧
      (r.ServeHTTP env (recorder detect) (NewRecorder h) req).w.Body = err ++ "\n" ∧
      Contains (r.ServeHTTP env (recorder detect) (NewRecorder h) req).w.Body msg ∧
      (r.ServeHTTP env (recorder detect) (NewRecorder h) req).events
        = [Event.ReadReportData (buildRequest (scopeOf req))] ∧
      ((r.ServeHTTP env (recorder detect) (NewRecorder h) req).events.filter
        Event.isBackend).length ≤ 1 ∧
      (r.ServeHTTP env (recorder detect) (NewRecorder h) req).panicked = none ∧
      (r.ServeHTTP env (recorder detect) (NewRecorder h) req).reporter = r ∧
      (∀ (σ : Type) (W : ResponseWriter σ) (w : σ),
        (r.ServeHTTP env W w req).w = Error W w err 500) := by
  have hrep : ∃ err, (r.report env (scopeOf req) (req.PathValue "name")).2 = Ret.err err ∧
      Contains err msg := by
    rcases hfail with hb | ⟨resp, hb, hd⟩ | ⟨resp, data, hb, hd, hx⟩
    · exact ⟨msg, report_backend_fail env r _ _ msg hb, Contains_refl msg⟩
    · exact ⟨msg, report_decode_fail env r _ _ msg resp hb hd, Contains_refl msg⟩
    · exact ⟨_, report_template_fail env r t _ _ msg resp data htmpl hb hd hx,
        Contains_append_right _ _ _ (Contains_refl msg)⟩
  obtain ⟨err, herr, hc⟩ := hrep
  have hgen : ∀ (σ : Type) (W : ResponseWriter σ) (w : σ),
      (r.ServeHTTP env W w req).w = Error W w err StatusInternalServerError ∧
      (r.ServeHTTP env W w req).panicked = none := by
    intro σ W w
    apply ServeHTTP_fail
    right
    rw [ensureInit_of_initialized env r hinit]
    exact ⟨rfl, herr⟩
  have hs := hgen _ (recorder detect) (NewRecorder h)
  have hi := ServeHTTP_of_initialized env (recorder detect) r (NewRecorder h) req hinit
  rw [Error_NewRecorder] at hs
  refine ⟨err, herr, hc, by rw [hs.1]; rfl, by rw [hs.1], ?_, hi.2, ?_, hs.2, hi.1,
    fun σ W w => (hgen σ W w).1⟩
  · rw [hs.1]
    exact Contains_append_left _ _ _ hc
  · rw [hi.2]
    simp [Event.isBackend]

/-- C5 at a concrete input: the initialized example Reporter with the backend
    down answers 500 with the backend's message. -/
theorem C5_failure_is_500_witness :
    ∃ err : String,
      (readyReporter.report backendDownEnv (scopeOf exampleRequest)
        (exampleRequest.PathValue "name")).2 = Ret.err err ∧
      Contains err "rpc error: code = Unavailable" ∧
      (readyReporter.ServeHTTP backendDownEnv (recorder id) (NewRecorder Values.empty)
        exampleRequest).w.StatusCode = 500 ∧
      (readyReporter.ServeHTTP backendDownEnv (recorder id) (NewRecorder Values.empty)
        exampleRequest).w.Body = err ++ "\n" :=
  let ⟨err, h1, h2, h3, h4, _⟩ :=
    C5_failure_is_500 id Values.empty backendDownEnv readyReporter exampleTemplate
      exampleRequest "rpc error: code = Unavailable" rfl rfl (Or.inl rfl)
  ⟨err, h1, h2, h3, h4⟩

/-- C6: on an initialized Reporter, when the backend call and the decoding
    succeed and the template named `<reportName>.tmpl` exists and renders `bytes`
    on the decoded data, the response has status 200, its Content-Type is exactly
    `text/html` whatever header map `h` the writer started with, and its body is
    exactly `bytes`. -/
theorem C6_success_is_200_html {δ : Type} (detect : String → String) (h : Header)
    (env : Env δ) (r : Reporter δ) (t : Template δ) (req : Request) (resp : String)
    (data : δ) (exec : δ → Except String String) (bytes : String)
    (hinit : r.initialized = true) (htmpl : r.tmpl = some t)
    (hb : env.ReadReportData (buildRequest (scopeOf req)) = Except.ok resp)
    (hd : env.Unmarshal resp = Except.ok data)
    (ht : t.tmpl (req.PathValue "name" ++ ".tmpl") = some exec)
    (hx : exec data = Except.ok bytes) :
    (r.ServeHTTP env (recorder detect) (NewRecorder h) req).w.StatusCode = 200 ∧
    (r.ServeHTTP env (recorder detect) (NewRecorder h) req).w.ResultHeader "Content-Type"
      = ["text/html"] ∧
    (r.ServeHTTP env (recorder detect) (NewRecorder h) req).w.Body = bytes ∧
    (r.ServeHTTP env (recorder detect) (NewRecorder h) req).panicked = none := by
  have hex : t.ExecuteTemplate env.table (req.PathValue "name" ++ ".tmpl") data
      = Except.ok bytes := by
    simp only [Template.ExecuteTemplate, ht, hx]
  have hs := ServeHTTP_ok detect h env r req bytes hinit
    (report_ok env r t _ _ bytes resp data htmpl hb hd hex)
  rw [hs.1] at *
  refine ⟨rfl, ?_, rfl, hs.2⟩
  simp [ResponseRecorder.ResultHeader, Values.Set]

/-- C6 at the scenario of the specification: `GET /report/rack-usage?zone=us-east`,
    a backend payload with three hosts and a writer on which a JSON default
    Content-Type was pre-set. -/
theorem C6_success_is_200_html_witness :
    (readyReporter.ServeHTTP exampleEnv (recorder id)
      (NewRecorder (Values.empty.Set "Content-Type" "application/json"))
      exampleRequest).w.StatusCode = 200 ∧
    (readyReporter.ServeHTTP exampleEnv (recorder id)
      (NewRecorder (Values.empty.Set "Content-Type" "application/json"))
      exampleRequest).w.ResultHeader "Content-Type" = ["text/html"] ∧
    (readyReporter.ServeHTTP exampleEnv (recorder id)
      (NewRecorder (Values.empty.Set "Content-Type" "application/json"))
      exampleRequest).w.Body = "Hosts: 3" :=
  let ⟨h1, h2, h3, _⟩ :=
    C6_success_is_200_html id (Values.empty.Set "Content-Type" "application/json") exampleEnv
      readyReporter exampleTemplate exampleRequest examplePayload "3"
      (fun hosts => Except.ok ("Hosts: " ++ hosts)) "Hosts: 3" rfl rfl rfl rfl rfl rfl
  ⟨h1, h2, h3⟩


set_option maxRecDepth 100000 in
/-- C7, as stated, fails. For the report name `a"b`, with the backend and the
    decoding working and no template of that name, the response is 500 but its
    body holds the name in quoted form, with the quote escaped, and the name
    itself does not occur in it. And when the backend is down the body is the
    backend's message: the missing report name `unknown` does not occur in it. -/
theorem C7_name_verbatim_counterexample :
    ((readyReporter.ServeHTTP exampleEnv (recorder id) (NewRecorder Values.empty)
        (requestFor quotedName)).w.StatusCode = 500 ∧
     (readyReporter.ServeHTTP exampleEnv (recorder id) (NewRecorder Values.empty)
        (requestFor quotedName)).w.Body
        = "failed to execute template \"a\\\"b\": template: no template \"a\\\"b.tmpl\" associated with template \"mops\"\n" ∧
     ¬ Contains (readyReporter.ServeHTTP exampleEnv (recorder id) (NewRecorder Values.empty)
        (requestFor quotedName)).w.Body quotedName) ∧
    ((readyReporter.ServeHTTP backendDownEnv (recorder id) (NewRecorder Values.empty)
        (requestFor "unknown")).w.StatusCode = 500 ∧
     ¬ Contains (readyReporter.ServeHTTP backendDownEnv (recorder id) (NewRecorder Values.empty)
        (requestFor "unknown")).w.Body "unknown") := by
  decide

/-- C7, amended: on an initialized Reporter whose backend call and decoding
    succeed, for every report name for which the template set has no template
    called `<reportName>.tmpl`, the response has status 500 and its body is the
    message `failed to execute template <q>: template: no template <q'> associated
    with template <root>` and a newline, where `<q>` and `<q'>` are the report name
    and the template name as printed by `%q`. The body therefore contains the
    quoted report name, and contains the name verbatim whenever every character
    of the name is printable and is neither a double quote nor a backslash. -/
theorem C7_missing_template {δ : Type} (detect : String → String) (h : Header) (env : Env δ)
    (r : Reporter δ) (t : Template δ) (req : Request) (resp : String) (data : δ)
    (hinit : r.initialized = true) (htmpl : r.tmpl = some t)
    (hb : env.ReadReportData (buildRequest (scopeOf req)) = Except.ok resp)
    (hd : env.Unmarshal resp = Except.ok data)
    (hmiss : t.tmpl (req.PathValue "name" ++ ".tmpl") = none) :
    (r.ServeHTTP env (recorder detect) (NewRecorder h) req).w.StatusCode = 500 ∧
    (r.ServeHTTP env (recorder detect) (NewRecorder h) req).w.Body
      = "failed to execute template " ++ Quote env.table (req.PathValue "name") ++ ": " ++
          ("template: no template " ++ Quote env.table (req.PathValue "name" ++ ".tmpl") ++
            " associated with template " ++ Quote env.table t.name) ++ "\n" ∧
    Contains (r.ServeHTTP env (recorder detect) (NewRecorder h) req).w.Body
      (Quote env.table (req.PathValue "name")) ∧
    ((∀ c ∈ (req.PathValue "name").data,
        c ≠ dquote ∧ c ≠ backslash ∧ IsPrint env.table c = true) →
      Contains (r.ServeHTTP env (recorder detect) (NewRecorder h) req).w.Body
        (req.PathValue "name")) := by
  have hex : t.ExecuteTemplate env.table (req.PathValue "name" ++ ".tmpl") data
      = Except.error ("template: no template " ++
          Quote env.table (req.PathValue "name" ++ ".tmpl") ++
          " associated with template " ++ Quote env.table t.name) := by
    simp only [Template.ExecuteTemplate, hmiss]
  have hrep := report_template_fail env r t (scopeOf req) (req.PathValue "name") _ resp data
    htmpl hb hd hex
  have hs := (ServeHTTP_fail env (recorder detect) r (NewRecorder h) req _
    (Or.inr (by rw [ensureInit_of_initialized env r hinit]; exact ⟨rfl, hrep⟩))).1
  rw [Error_NewRecorder] at hs
  have hq : Contains
      ("failed to execute template " ++ Quote env.table (req.PathValue "name") ++ ": " ++
          ("template: no template " ++ Quote env.table (req.PathValue "name" ++ ".tmpl") ++
            " associated with template " ++ Quote env.table t.name) ++ "\n")
      (Quote env.table (req.PathValue "name")) :=
    Contains_append_left _ _ _ (Contains_append_left _ _ _ (Contains_append_left _ _ _
      (Contains_append_right _ _ _ (Contains_refl _))))
  rw [hs]
  refine ⟨rfl, rfl, hq, ?_⟩
  intro hplain
  obtain ⟨a, b, hab⟩ := hq
  obtain ⟨c, d, hcd⟩ := Contains_Quote_plain env.table (req.PathValue "name") hplain
  refine ⟨a ++ c, d ++ b, ?_⟩
  rw [← hab, ← hcd]
  simp

/-- C7, amended, at the scenario of the specification: `GET /report/unknown`
    with no `unknown.tmpl`. -/
theorem C7_missing_template_witness :
    (readyReporter.ServeHTTP exampleEnv (recorder id) (NewRecorder Values.empty)
      (requestFor "unknown")).w.StatusCode = 500 ∧
    Contains (readyReporter.ServeHTTP exampleEnv (recorder id) (NewRecorder Values.empty)
      (requestFor "unknown")).w.Body "unknown" :=
  let ⟨h1, _, _, h4⟩ :=
    C7_missing_template id Values.empty exampleEnv readyReporter exampleTemplate
      (requestFor "unknown") examplePayload "3" rfl rfl rfl rfl rfl
  ⟨h1, h4 (by decide)⟩

/-- C8, as stated, fails: with `application/json` pre-set as the default
    Content-Type and the backend down, the error response carries
    `text/plain; charset=utf-8`, not the pre-set default. -/
theorem C8_default_content_type_counterexample :
    (NewRecorder (Values.empty.Set "Content-Type" "application/json")).HeaderMap "Content-Type"
      = ["application/json"] ∧
    (readyReporter.ServeHTTP backendDownEnv (recorder id)
      (NewRecorder (Values.empty.Set "Content-Type" "application/json"))
      exampleRequest).w.StatusCode = 500 ∧
    (readyReporter.ServeHTTP backendDownEnv (recorder id)
      (NewRecorder (Values.empty.Set "Content-Type" "application/json"))
      exampleRequest).w.ResultHeader "Content-Type" = ["text/plain; charset=utf-8"] ∧
    (readyReporter.ServeHTTP backendDownEnv (recorder id)
      (NewRecorder (Values.empty.Set "Content-Type" "application/json"))
      exampleRequest).w.ResultHeader "Content-Type" ≠ ["application/json"] := by
  decide

/-- C8, amended: whatever headers were pre-set on the writer, when the Reporter
    fails before writing any body, because `init` fails or because `report`
    returns an error (backend, decode or template failure), the response has
    status 500 and Content-Type `text/plain; charset=utf-8`, put there by
    `http.Error` in place of any pre-set value; every header other than
    Content-Type, X-Content-Type-Options and Content-Length is as pre-set. -/
theorem C8_error_content_type {δ : Type} (detect : String → String) (h : Header)
    (env : Env δ) (r : Reporter δ) (req : Request) (e : String)
    (hfail : (r.ensureInit env).2.2 = some e ∨
      ((r.ensureInit env).2.2 = none ∧
        ((r.ensureInit env).1.report env (scopeOf req) (req.PathValue "name")).2 = Ret.err e)) :
    (r.ServeHTTP env (recorder detect) (NewRecorder h) req).w.StatusCode = 500 ∧
    (r.ServeHTTP env (recorder detect) (NewRecorder h) req).w.ResultHeader "Content-Type"
      = ["text/plain; charset=utf-8"] ∧
    (∀ k, k ≠ "Content-Type" → k ≠ "X-Content-Type-Options" → k ≠ "Content-Length" →
      (r.ServeHTTP env (recorder detect) (NewRecorder h) req).w.ResultHeader k = h k) := by
  have hs := (ServeHTTP_fail env (recorder detect) r (NewRecorder h) req e hfail).1
  rw [Error_NewRecorder] at hs
  rw [hs]
  exact ⟨rfl, (Error_header h).1, (Error_header h).2⟩

/-- C8, amended, at concrete inputs: a JSON default pre-set, once with a fresh
    Reporter whose `init` fails and once with an initialized Reporter whose
    backend is down. -/
theorem C8_error_content_type_witness :
    (newReporter.ServeHTTP parseErrorEnv (recorder id)
      (NewRecorder (Values.empty.Set "Content-Type" "application/json"))
      exampleRequest).w.ResultHeader "Content-Type" = ["text/plain; charset=utf-8"] ∧
    (readyReporter.ServeHTTP backendDownEnv (recorder id)
      (NewRecorder (Values.empty.Set "Content-Type" "application/json"))
      exampleRequest).w.ResultHeader "Content-Type" = ["text/plain; charset=utf-8"] :=
  ⟨(C8_error_content_type id (Values.empty.Set "Content-Type" "application/json")
      parseErrorEnv newReporter exampleRequest
      "failed to parse template: template: rack-usage.tmpl:1: unexpected EOF"
      (Or.inl rfl)).2.1,
   (C8_error_content_type id (Values.empty.Set "Content-Type" "application/json")
      backendDownEnv readyReporter exampleRequest "rpc error: code = Unavailable"
      (Or.inr ⟨rfl, rfl⟩)).2.1⟩


end MetalOps
